import Mathlib

/-!
Verification of the blood-bank CRUD backend (src/backend/server.js).

The server is embedded shallowly: the three Mongo collections become lists in
a `DB` record, each Express handler becomes a pure function from a `DB` (plus
the parsed request data and the identifiers/timestamps the runtime supplies)
to a new `DB` and a response record.  JavaScript `Date` values are modelled as
integer day numbers (days since the Unix epoch); `Date.prototype.getDate` is
the civil day-of-month obtained from the standard days-to-civil-calendar
conversion, and `setDate(n)` re-anchors the date at day-of-month `n` of the
current month, which is day number `z - getDate z + n`.
-/

namespace BloodBank

/-! ## JavaScript date arithmetic (server.js lines 112-113) -/

/-- Civil (year, month, day) from a day number counted from 1970-01-01,
the standard Gregorian conversion used by JavaScript `Date`. -/
def civilOfDays (z : Int) : Int × Int × Int :=
  let z' := z + 719468
  let era := z' / 146097
  let doe := z' - era * 146097
  let yoe := (doe - doe / 1460 + doe / 36524 - doe / 146096) / 365
  let y := yoe + era * 400
  let doy := doe - (365 * yoe + yoe / 4 - yoe / 100)
  let mp := (5 * doy + 2) / 153
  let d := doy - (153 * mp + 2) / 5 + 1
  let m := mp + (if mp < 10 then 3 else -9)
  (y + (if m ≤ 2 then 1 else 0), m, d)

/-- `Date.prototype.getDate`: the day of the month of a date. -/
def getDate (z : Int) : Int := (civilOfDays z).2.2

/-- `Date.prototype.setDate n`: keep the current month, set the day-of-month
field to `n`, letting out-of-range values roll over, exactly as JavaScript
normalises them: the result is the first of the current month plus `n - 1`
days, i.e. `z - getDate z + n`. -/
def jsSetDate (z n : Int) : Int := z - getDate z + n

/-- server.js lines 112-113:
`const expiryDate = new Date(collectionDate); expiryDate.setDate(expiryDate.getDate() + 35);` -/
def computeExpiryDate (collectionDate : Int) : Int :=
  jsSetDate collectionDate (getDate collectionDate + 35)

/-! ## Data model (server.js lines 32-64) -/

/-- A stored Donor document (donorSchema, lines 32-40). -/
structure Donor where
  id : String
  name : String
  bloodType : String
  phone : String
  email : String
  address : String
  lastDonation : Option Int
  createdAt : Int
deriving DecidableEq, Repr

/-- A stored Inventory document (inventorySchema, lines 42-49). -/
structure InventoryUnit where
  id : String
  bloodType : String
  donorId : String
  collectionDate : Int
  expiryDate : Int
  status : String
  createdAt : Int
deriving DecidableEq, Repr

/-- A stored Request document (requestSchema, lines 51-59). -/
structure BloodRequest where
  id : String
  patientName : String
  bloodType : String
  unitsNeeded : Int
  priority : String
  hospital : String
  status : String
  requestDate : Int
deriving DecidableEq, Repr

/-- The three collections of the Mongo database. -/
structure DB where
  donors : List Donor
  inventory : List InventoryUnit
  requests : List BloodRequest
deriving DecidableEq, Repr

def emptyDB : DB := { donors := [], inventory := [], requests := [] }

/-! ## Identifier validation

Route parameters are cast to Mongo `ObjectId`s; a string that is not a valid
ObjectId (24 hexadecimal characters) makes the query throw a `CastError`,
which each handler's `catch` block turns into an error response. -/

def isHexChar (c : Char) : Bool :=
  c.isDigit || (Char.ofNat 97 ≤ c && c ≤ Char.ofNat 102) || (Char.ofNat 65 ≤ c && c ≤ Char.ofNat 70)

def isValidObjectId (s : String) : Bool :=
  s.toList.length == 24 && s.toList.all isHexChar

/-- The raw mongoose CastError message leaked to the client. -/
def castErrorMessage (value : String) (model : String) : String :=
  "Cast to ObjectId failed for value \"" ++ value ++ "\" (type string) at path \"_id\" for model \"" ++ model ++ "\""

/-! ## List handlers (server.js lines 69-76, 98-105, 150-157)

`Model.find().sort(\x7b createdAt: -1 \x7d)` returns every document of the
collection ordered by the sort key descending; it reads and never writes. -/

def donorDesc (a b : Donor) : Bool := decide (b.createdAt ≤ a.createdAt)

def invDesc (a b : InventoryUnit) : Bool := decide (b.createdAt ≤ a.createdAt)

def reqDesc (a b : BloodRequest) : Bool := decide (b.requestDate ≤ a.requestDate)

/-- GET /api/donors (lines 69-76). -/
def getDonorsHandler (db : DB) : DB × List Donor :=
  (db, db.donors.mergeSort donorDesc)

/-- GET /api/inventory (lines 98-105). -/
def getInventoryHandler (db : DB) : DB × List InventoryUnit :=
  (db, db.inventory.mergeSort invDesc)

/-- GET /api/requests (lines 150-157). -/
def getRequestsHandler (db : DB) : DB × List BloodRequest :=
  (db, db.requests.mergeSort reqDesc)

/-! ## POST /api/donors (server.js lines 78-86) -/

/-- The parsed request body for donor creation: each schema field is present
(and castable to a string) or not.  `lastDonation`/`createdAt` have schema
defaults and are not required. -/
structure DonorBody where
  name : Option String
  bloodType : Option String
  phone : Option String
  email : Option String
  address : Option String
deriving DecidableEq, Repr

/-- Mongoose `required: true` check for a String path: present and non-empty. -/
def requiredStringOk (v : Option String) : Bool :=
  match v with
  | some s => decide (0 < s.length)
  | none => false

/-- `donor.save()` succeeds iff every required path of donorSchema validates. -/
def validDonorBody (b : DonorBody) : Bool :=
  requiredStringOk b.name && requiredStringOk b.bloodType && requiredStringOk b.phone &&
    requiredStringOk b.email && requiredStringOk b.address

/-- The document `new Donor(req.body)` persists: a fresh ObjectId, the body's
fields, the schema defaults `lastDonation = null` and `createdAt = Date.now`. -/
def mkDonor (b : DonorBody) (newId : String) (now : Int) : Donor :=
  { id := newId
    name := b.name.getD ""
    bloodType := b.bloodType.getD ""
    phone := b.phone.getD ""
    email := b.email.getD ""
    address := b.address.getD ""
    lastDonation := none
    createdAt := now }

structure PostDonorResponse where
  status : Nat
  success : Bool
  donor : Option Donor
  message : Option String
deriving DecidableEq, Repr

/-- POST /api/donors (lines 78-86): save the new donor and reply
`\x7bsuccess: true, donor\x7d`; a validation error is caught and mapped to
status 400 with the raw error message. -/
def postDonorsHandler (db : DB) (b : DonorBody) (newId : String) (now : Int) :
    DB × PostDonorResponse :=
  if validDonorBody b then
    let d := mkDonor b newId now
    ({ db with donors := db.donors ++ [d] },
     { status := 200, success := true, donor := some d, message := none })
  else
    (db, { status := 400, success := false, donor := none,
           message := some "Donor validation failed" })

/-! ## DELETE handlers (server.js lines 88-95, 140-147, 182-189)

`Model.findByIdAndDelete(id)` deletes the matching document if any and does
not report whether one matched; a malformed id throws a CastError, which the
catch block maps to status 500. -/

structure DeleteResponse where
  status : Nat
  success : Bool
  message : String
deriving DecidableEq, Repr

/-- DELETE /api/donors/:id (lines 88-95). -/
def deleteDonorHandler (db : DB) (id : String) : DB × DeleteResponse :=
  if isValidObjectId id then
    ({ db with donors := db.donors.filter (fun d => d.id != id) },
     { status := 200, success := true, message := "Donor deleted successfully" })
  else
    (db, { status := 500, success := false, message := castErrorMessage id "Donor" })

/-- DELETE /api/inventory/:id (lines 140-147). -/
def deleteInventoryHandler (db : DB) (id : String) : DB × DeleteResponse :=
  if isValidObjectId id then
    ({ db with inventory := db.inventory.filter (fun u => u.id != id) },
     { status := 200, success := true, message := "Blood unit deleted successfully" })
  else
    (db, { status := 500, success := false, message := castErrorMessage id "Inventory" })

/-- DELETE /api/requests/:id (lines 182-189). -/
def deleteRequestHandler (db : DB) (id : String) : DB × DeleteResponse :=
  if isValidObjectId id then
    ({ db with requests := db.requests.filter (fun r => r.id != id) },
     { status := 200, success := true, message := "Request deleted successfully" })
  else
    (db, { status := 500, success := false, message := castErrorMessage id "Request" })

/-! ## POST /api/inventory (server.js lines 107-138) -/

/-- The parsed request body.  The handler destructures only `bloodType`,
`donorId` and `collectionDate`; a client may also send `status` or
`expiryDate` fields, which the destructuring never reads, so they are carried
here to state that they are ignored. -/
structure InventoryBody where
  bloodType : String
  donorId : String
  collectionDate : Int
  status : Option String
  expiryDate : Option Int
deriving DecidableEq, Repr

/-- The document `new Inventory(\x7b bloodType, donorId, collectionDate,
expiryDate \x7d)` persists: `expiryDate` is the server-computed value and
`status` takes its schema default "Available". -/
def mkBloodUnit (b : InventoryBody) (newId : String) (now : Int) : InventoryUnit :=
  { id := newId
    bloodType := b.bloodType
    donorId := b.donorId
    collectionDate := b.collectionDate
    expiryDate := computeExpiryDate b.collectionDate
    status := "Available"
    createdAt := now }

/-- server.js lines 125-132: `Donor.findOne(\x7b _id: donorId \x7d)` followed, when a
donor is found, by setting `lastDonation` and saving.  A malformed `donorId`
makes `findOne` reject with a CastError, swallowed by the `.catch`; a failing
`donor.save()` (modelled by `saveOk = false`) leaves the collection unchanged
and is likewise discarded. -/
def updateDonorLastDonation (donors : List Donor) (donorId : String)
    (collectionDate : Int) (saveOk : Bool) : List Donor :=
  if isValidObjectId donorId then
    match donors.find? (fun d => d.id == donorId) with
    | some _ =>
        if saveOk then
          donors.map (fun d =>
            if d.id == donorId then { d with lastDonation := some collectionDate } else d)
        else donors
    | none => donors
  else donors

structure PostInventoryResponse where
  status : Nat
  success : Bool
  bloodUnit : Option InventoryUnit
  message : Option String
deriving DecidableEq, Repr

/-- POST /api/inventory (lines 107-138): compute the expiry date, save the
unit, best-effort-update the donor's `lastDonation`, and reply
`\x7bsuccess: true, bloodUnit\x7d` whatever became of the donor update. -/
def postInventoryHandler (db : DB) (b : InventoryBody) (newId : String) (now : Int)
    (donorSaveOk : Bool) : DB × PostInventoryResponse :=
  let unit := mkBloodUnit b newId now
  let db1 : DB := { db with inventory := db.inventory ++ [unit] }
  let db2 : DB :=
    { db1 with donors := updateDonorLastDonation db1.donors b.donorId b.collectionDate donorSaveOk }
  (db2, { status := 200, success := true, bloodUnit := some unit, message := none })

/-! ## PUT /api/requests/:id (server.js lines 169-180) -/

/-- A partial or full update body: any subset of the schema fields. -/
structure RequestUpdateBody where
  patientName : Option String
  bloodType : Option String
  unitsNeeded : Option Int
  priority : Option String
  hospital : Option String
  status : Option String
  requestDate : Option Int
deriving DecidableEq, Repr

/-- The `$set` semantics of `findByIdAndUpdate`: each field present in the
body replaces the stored field, absent fields keep their stored value. -/
def applyRequestUpdate (r : BloodRequest) (u : RequestUpdateBody) : BloodRequest :=
  { id := r.id
    patientName := u.patientName.getD r.patientName
    bloodType := u.bloodType.getD r.bloodType
    unitsNeeded := u.unitsNeeded.getD r.unitsNeeded
    priority := u.priority.getD r.priority
    hospital := u.hospital.getD r.hospital
    status := u.status.getD r.status
    requestDate := u.requestDate.getD r.requestDate }

structure PutRequestResponse where
  status : Nat
  success : Bool
  request : Option BloodRequest
  message : Option String
deriving DecidableEq, Repr

/-- PUT /api/requests/:id (lines 169-180): `findByIdAndUpdate(id, body,
\x7b new: true \x7d)` returns the post-update document, or null when no document
has that id; the handler replies `\x7bsuccess: true, request\x7d` either way.  A
malformed id throws a CastError, mapped by the catch block to status 500. -/
def putRequestHandler (db : DB) (id : String) (u : RequestUpdateBody) :
    DB × PutRequestResponse :=
  if isValidObjectId id then
    match db.requests.find? (fun r => r.id == id) with
    | some r =>
        ({ db with requests := db.requests.map (fun x =>
             if x.id == id then applyRequestUpdate x u else x) },
         { status := 200, success := true, request := some (applyRequestUpdate r u),
           message := none })
    | none =>
        (db, { status := 200, success := true, request := none, message := none })
  else
    (db, { status := 500, success := false, request := none,
           message := some (castErrorMessage id "Request") })

/-! ## Routing (server.js lines 69-199)

Express matches routes in registration order.  The API routes are explicit
`(verb, path)` pairs; `app.get('/')` and the catch-all `app.get('*')` send
the same front-end entry document `index.html` — but both are registered with
`app.get`, so they match only GET requests.  A request with another verb and
no matching route falls through to Express's default 404 responder. -/

inductive HttpMethod
  | get
  | post
  | put
  | del
  | other
deriving DecidableEq, Repr

/-- Does the path match `pre ++ "/:id"`, i.e. one further non-empty
slash-free segment after `pre`? -/
def idRoute (pre p : String) : Bool :=
  let rest := p.toList.drop (pre.length + 1)
  (pre ++ "/").toList.isPrefixOf p.toList && decide (0 < rest.length) &&
    rest.all (fun c => c != Char.ofNat 47)

/-- The ten API routes of server.js, in registration order. -/
def apiRouteMatches (m : HttpMethod) (p : String) : Bool :=
  (m == .get && p == "/api/donors") ||
  (m == .post && p == "/api/donors") ||
  (m == .del && idRoute "/api/donors" p) ||
  (m == .get && p == "/api/inventory") ||
  (m == .post && p == "/api/inventory") ||
  (m == .del && idRoute "/api/inventory" p) ||
  (m == .get && p == "/api/requests") ||
  (m == .post && p == "/api/requests") ||
  (m == .put && idRoute "/api/requests" p) ||
  (m == .del && idRoute "/api/requests" p)

inductive RouteOutcome
  | apiHandler
  | indexHtml
  | expressNotFound
deriving DecidableEq, Repr

/-- Route dispatch: an API route runs its handler; otherwise `app.get('/')`
or `app.get('*')` serves index.html for GET requests only, and every other
verb reaches Express's final 404 handler. -/
def dispatch (m : HttpMethod) (p : String) : RouteOutcome :=
  if apiRouteMatches m p then .apiHandler
  else if m == .get then .indexHtml
  else .expressNotFound

/-! ## Concrete fixtures used by the witness theorems -/

def sampleObjectId : String := "5f1a2b3c4d5e6f7a8b9c0d1e"

def sampleDonor : Donor :=
  { id := sampleObjectId, name := "Alice", bloodType := "O+", phone := "555-0100",
    email := "alice@example.com", address := "1 Main St", lastDonation := none, createdAt := 0 }

def sampleDB : DB := { donors := [sampleDonor], inventory := [], requests := [] }

def sampleInvBody : InventoryBody :=
  { bloodType := "O+", donorId := sampleObjectId, collectionDate := 19000,
    status := none, expiryDate := none }

def sampleDonorBody : DonorBody :=
  { name := some "Alice", bloodType := some "O+", phone := some "555-0100",
    email := some "alice@example.com", address := some "1 Main St" }

def badDonorBody : DonorBody :=
  { name := none, bloodType := none, phone := none, email := none, address := none }

def emptyUpdate : RequestUpdateBody :=
  { patientName := none, bloodType := none, unitsNeeded := none, priority := none,
    hospital := none, status := none, requestDate := none }

/-! ## Helper lemmas -/

theorem updateDonor_save_fail (donors : List Donor) (did : String) (cd : Int) :
    updateDonorLastDonation donors did cd false = donors := by
  unfold updateDonorLastDonation
  cases hv : isValidObjectId did
  · simp
  · cases hfd : donors.find? (fun d => d.id == did) <;> simp

theorem donorDesc_trans (a b c : Donor) (hab : donorDesc a b = true)
    (hbc : donorDesc b c = true) : donorDesc a c = true := by
  simp [donorDesc] at *
  omega

theorem donorDesc_total (a b : Donor) : (donorDesc a b || donorDesc b a) = true := by
  simp [donorDesc]
  omega

theorem invDesc_trans (a b c : InventoryUnit) (hab : invDesc a b = true)
    (hbc : invDesc b c = true) : invDesc a c = true := by
  simp [invDesc] at *
  omega

theorem invDesc_total (a b : InventoryUnit) : (invDesc a b || invDesc b a) = true := by
  simp [invDesc]
  omega

theorem reqDesc_trans (a b c : BloodRequest) (hab : reqDesc a b = true)
    (hbc : reqDesc b c = true) : reqDesc a c = true := by
  simp [reqDesc] at *
  omega

theorem reqDesc_total (a b : BloodRequest) : (reqDesc a b || reqDesc b a) = true := by
  simp [reqDesc]
  omega

/-! ## Claim theorems -/

/-- Claim C1: for every inventory creation via POST /api/inventory with
collection date D, the expiryDate stored on the created unit and returned in
the response equals D plus 35 calendar days exactly. -/
theorem expiry_is_collection_plus_35 (db : DB) (b : InventoryBody) (newId : String)
    (now : Int) (ok : Bool) :
    computeExpiryDate b.collectionDate = b.collectionDate + 35 ∧
    (postInventoryHandler db b newId now ok).2.bloodUnit = some (mkBloodUnit b newId now) ∧
    (mkBloodUnit b newId now).expiryDate = b.collectionDate + 35 ∧
    mkBloodUnit b newId now ∈ (postInventoryHandler db b newId now ok).1.inventory := by
  have h : computeExpiryDate b.collectionDate = b.collectionDate + 35 := by
    unfold computeExpiryDate jsSetDate
    ring
  refine ⟨h, rfl, h, ?_⟩
  simp [postInventoryHandler]

/-- Claim C10: the three list handlers are read-only: they return the
database unchanged. -/
theorem list_handlers_read_only (db : DB) :
    (getDonorsHandler db).1 = db ∧ (getInventoryHandler db).1 = db ∧
    (getRequestsHandler db).1 = db :=
  ⟨rfl, rfl, rfl⟩

/-- Claim C9: every unit created through POST /api/inventory has status
"Available" and the server-computed expiryDate; the handler reads only
bloodType, donorId and collectionDate from the body, so client-supplied
status or expiryDate fields change nothing. -/
theorem inventory_ignores_client_fields (db : DB) (b : InventoryBody) (newId : String)
    (now : Int) (ok : Bool) (s : Option String) (e : Option Int) :
    (postInventoryHandler db b newId now ok).2.bloodUnit = some (mkBloodUnit b newId now) ∧
    (mkBloodUnit b newId now).status = "Available" ∧
    (mkBloodUnit b newId now).expiryDate = computeExpiryDate b.collectionDate ∧
    postInventoryHandler db { b with status := s, expiryDate := e } newId now ok =
      postInventoryHandler db b newId now ok :=
  ⟨rfl, rfl, rfl, rfl⟩

/-- Claim C7: the list handlers return all records of their collection
ordered by createdAt (donors, inventory) respectively requestDate (requests)
descending. -/
theorem list_handlers_sorted_desc (db : DB) :
    ((getDonorsHandler db).2.Perm db.donors ∧
      List.Pairwise (fun a b => b.createdAt ≤ a.createdAt) (getDonorsHandler db).2) ∧
    ((getInventoryHandler db).2.Perm db.inventory ∧
      List.Pairwise (fun a b => b.createdAt ≤ a.createdAt) (getInventoryHandler db).2) ∧
    ((getRequestsHandler db).2.Perm db.requests ∧
      List.Pairwise (fun a b => b.requestDate ≤ a.requestDate) (getRequestsHandler db).2) := by
  refine ⟨⟨List.mergeSort_perm _ _, ?_⟩, ⟨List.mergeSort_perm _ _, ?_⟩,
    ⟨List.mergeSort_perm _ _, ?_⟩⟩
  · exact (List.sorted_mergeSort donorDesc_trans donorDesc_total db.donors).imp
      (fun h => by simpa [donorDesc] using h)
  · exact (List.sorted_mergeSort invDesc_trans invDesc_total db.inventory).imp
      (fun h => by simpa [invDesc] using h)
  · exact (List.sorted_mergeSort reqDesc_trans reqDesc_total db.requests).imp
      (fun h => by simpa [reqDesc] using h)

/-- Claim C2: POST /api/inventory persists the unit and always replies
success with it; when a donor with the supplied donorId exists (and its save
succeeds), that donor's lastDonation becomes the supplied collectionDate;
when no donor matches, or the lookup/save fails, the donors collection is
untouched and the response is unaffected — the unit creation is never rolled
back. -/
theorem inventory_creation_donor_side_effect (db : DB) (b : InventoryBody)
    (newId : String) (now : Int) (ok : Bool) :
    ((postInventoryHandler db b newId now ok).2 =
        { status := 200, success := true, bloodUnit := some (mkBloodUnit b newId now),
          message := none } ∧
      mkBloodUnit b newId now ∈ (postInventoryHandler db b newId now ok).1.inventory) ∧
    (∀ d ∈ db.donors, d.id = b.donorId → isValidObjectId b.donorId = true → ok = true →
      { d with lastDonation := some b.collectionDate } ∈
        (postInventoryHandler db b newId now ok).1.donors) ∧
    ((∀ d ∈ db.donors, d.id ≠ b.donorId) →
      (postInventoryHandler db b newId now ok).1.donors = db.donors) ∧
    (ok = false → (postInventoryHandler db b newId now ok).1.donors = db.donors) ∧
    (∀ (db' : DB) (ok' : Bool),
      (postInventoryHandler db' b newId now ok').2 = (postInventoryHandler db b newId now ok).2) := by
  refine ⟨⟨rfl, by simp [postInventoryHandler]⟩, ?_, ?_, ?_, fun _ _ => rfl⟩
  · intro d hd hid hvalid hok
    subst hok
    show { d with lastDonation := some b.collectionDate } ∈
      updateDonorLastDonation db.donors b.donorId b.collectionDate true
    have hfind : (List.find? (fun x => x.id == b.donorId) db.donors).isSome = true := by
      rw [List.find?_isSome]
      exact ⟨d, hd, by simp [hid]⟩
    obtain ⟨d0, hd0⟩ := Option.isSome_iff_exists.mp hfind
    unfold updateDonorLastDonation
    rw [hvalid, hd0]
    simp only [if_true]
    exact List.mem_map.mpr ⟨d, hd, by simp [hid]⟩
  · intro hnone
    show updateDonorLastDonation db.donors b.donorId b.collectionDate ok = db.donors
    have hfn : List.find? (fun x => x.id == b.donorId) db.donors = none := by
      rw [List.find?_eq_none]
      intro x hx
      simp [hnone x hx]
    unfold updateDonorLastDonation
    cases hv : isValidObjectId b.donorId <;> simp [hfn]
  · intro hok
    subst hok
    exact updateDonor_save_fail db.donors b.donorId b.collectionDate

/-- Witness for C2 at a concrete store: the sample donor's lastDonation is
updated to the collection date of the new unit. -/
theorem inventory_creation_donor_side_effect_witness :
    { sampleDonor with lastDonation := some (19000 : Int) } ∈
      (postInventoryHandler sampleDB sampleInvBody "unit1" 5 true).1.donors :=
  (inventory_creation_donor_side_effect sampleDB sampleInvBody "unit1" 5 true).2.1 sampleDonor
    (by simp [sampleDB]) rfl (by decide) rfl

/-- Counterexample to claim C3: a malformed identifier in the path of
DELETE /api/donors/:id is a client error, yet the handler's catch block
replies with status 500 — not a 4xx-equivalent status. -/
theorem delete_malformed_id_is_500 :
    isValidObjectId "abc" = false ∧
    (deleteDonorHandler emptyDB "abc").2.success = false ∧
    (deleteDonorHandler emptyDB "abc").2.message = castErrorMessage "abc" "Donor" ∧
    (deleteDonorHandler emptyDB "abc").2.status = 500 ∧
    ¬ (400 ≤ (deleteDonorHandler emptyDB "abc").2.status ∧
        (deleteDonorHandler emptyDB "abc").2.status < 500) := by
  decide

/-- Claim C3 as amended: only the POST handlers map their errors
(validation included) to 400; the GET, PUT and DELETE handlers map every
error — malformed-identifier client errors included — to 500, always with
success=false and the raw error message. -/
theorem error_statuses_by_handler (db : DB) (id : String) (b : DonorBody)
    (u : RequestUpdateBody) (hid : isValidObjectId id = false)
    (hb : validDonorBody b = false) :
    (deleteDonorHandler db id).2 =
      { status := 500, success := false, message := castErrorMessage id "Donor" } ∧
    (deleteInventoryHandler db id).2 =
      { status := 500, success := false, message := castErrorMessage id "Inventory" } ∧
    (deleteRequestHandler db id).2 =
      { status := 500, success := false, message := castErrorMessage id "Request" } ∧
    (putRequestHandler db id u).2 =
      { status := 500, success := false, request := none,
        message := some (castErrorMessage id "Request") } ∧
    (∀ (newId : String) (now : Int),
      (postDonorsHandler db b newId now).2.status = 400 ∧
      (postDonorsHandler db b newId now).2.success = false) := by
  refine ⟨?_, ?_, ?_, ?_, fun newId now => ⟨?_, ?_⟩⟩ <;>
    simp [deleteDonorHandler, deleteInventoryHandler, deleteRequestHandler,
      putRequestHandler, postDonorsHandler, hid, hb]

/-- Witness for the amended C3 at concrete inputs. -/
theorem error_statuses_by_handler_witness :
    (deleteDonorHandler emptyDB "abc").2.status = 500 ∧
    (putRequestHandler emptyDB "abc" emptyUpdate).2.status = 500 ∧
    (postDonorsHandler emptyDB badDonorBody "id1" 0).2.status = 400 := by
  have h := error_statuses_by_handler emptyDB "abc" badDonorBody emptyUpdate
    (by decide) (by decide)
  exact ⟨by rw [h.1], by rw [h.2.2.2.1], (h.2.2.2.2 "id1" 0).1⟩

/-- Claim C4: for a well-formed identifier that matches no stored record,
the three DELETE handlers leave the store unchanged and reply success=true
with their deleted-successfully message — and the reply is the same for
every store, so a no-match delete is indistinguishable from one that removed
a record. -/
theorem delete_nonexistent_indistinguishable (db : DB) (id : String)
    (hid : isValidObjectId id = true)
    (hd : ∀ d ∈ db.donors, d.id ≠ id)
    (hi : ∀ u ∈ db.inventory, u.id ≠ id)
    (hr : ∀ r ∈ db.requests, r.id ≠ id) :
    deleteDonorHandler db id =
      (db, { status := 200, success := true, message := "Donor deleted successfully" }) ∧
    deleteInventoryHandler db id =
      (db, { status := 200, success := true, message := "Blood unit deleted successfully" }) ∧
    deleteRequestHandler db id =
      (db, { status := 200, success := true, message := "Request deleted successfully" }) ∧
    (∀ db' : DB,
      (deleteDonorHandler db' id).2 = (deleteDonorHandler db id).2 ∧
      (deleteInventoryHandler db' id).2 = (deleteInventoryHandler db id).2 ∧
      (deleteRequestHandler db' id).2 = (deleteRequestHandler db id).2) := by
  have h1 : db.donors.filter (fun d => d.id != id) = db.donors :=
    List.filter_eq_self.mpr (fun d hdm => by simpa using hd d hdm)
  have h2 : db.inventory.filter (fun u => u.id != id) = db.inventory :=
    List.filter_eq_self.mpr (fun u hum => by simpa using hi u hum)
  have h3 : db.requests.filter (fun r => r.id != id) = db.requests :=
    List.filter_eq_self.mpr (fun r hrm => by simpa using hr r hrm)
  refine ⟨?_, ?_, ?_, fun db' => ⟨?_, ?_, ?_⟩⟩ <;>
    simp [deleteDonorHandler, deleteInventoryHandler, deleteRequestHandler, hid, h1, h2, h3]

/-- Witness for C4: deleting a valid but absent identifier from the empty
store succeeds with the standard message and changes nothing. -/
theorem delete_nonexistent_indistinguishable_witness :
    deleteDonorHandler emptyDB sampleObjectId =
      (emptyDB, { status := 200, success := true, message := "Donor deleted successfully" }) :=
  (delete_nonexistent_indistinguishable emptyDB sampleObjectId (by decide)
    (by simp [emptyDB]) (by simp [emptyDB]) (by simp [emptyDB])).1

/-- Claim C5: PUT /api/requests/:id with a partial or full body replaces
exactly the fields present in the body on the matching record and replies
success=true with the post-update record; when no record matches the
(well-formed) identifier it replies success=true with a null record and the
store is unchanged. -/
theorem put_request_update_semantics (db : DB) (id : String) (u : RequestUpdateBody)
    (hid : isValidObjectId id = true) :
    (∀ r, List.find? (fun x => x.id == id) db.requests = some r →
      (putRequestHandler db id u).2 =
        { status := 200, success := true, request := some (applyRequestUpdate r u),
          message := none } ∧
      applyRequestUpdate r u ∈ (putRequestHandler db id u).1.requests) ∧
    (List.find? (fun x => x.id == id) db.requests = none →
      putRequestHandler db id u =
        (db, { status := 200, success := true, request := none, message := none })) ∧
    (∀ (r : BloodRequest) (s : String), u.status = some s →
      (applyRequestUpdate r u).status = s) := by
  refine ⟨?_, ?_, ?_⟩
  · intro r hr
    have hrmem : r ∈ db.requests := List.mem_of_find?_eq_some hr
    have hrid : (r.id == id) = true := by
      have hp := @List.find?_some _ (fun x => x.id == id) r db.requests hr
      simpa using hp
    constructor
    · simp [putRequestHandler, hid, hr]
    · show applyRequestUpdate r u ∈ (putRequestHandler db id u).1.requests
      unfold putRequestHandler
      rw [hid, hr]
      simp only [if_true]
      exact List.mem_map.mpr ⟨r, hrmem, by simp [hrid]⟩
  · intro h
    simp [putRequestHandler, hid, h]
  · intro r s hs
    simp [applyRequestUpdate, hs]

/-- Witness for C5: on the empty store no request matches, and the reply is
success=true with a null record. -/
theorem put_request_update_semantics_witness :
    putRequestHandler emptyDB sampleObjectId emptyUpdate =
      (emptyDB, { status := 200, success := true, request := none, message := none }) :=
  (put_request_update_semantics emptyDB sampleObjectId emptyUpdate (by decide)).2.1 rfl

/-- Claim C6: POST /api/donors succeeds — replying success=true with a stored
donor carrying the generated identifier and a createdAt timestamp — if and
only if the body supplies every required field (non-empty, string-castable);
otherwise it replies 400 and stores nothing. -/
theorem post_donors_validation (db : DB) (b : DonorBody) (newId : String) (now : Int) :
    ((postDonorsHandler db b newId now).2.success = true ↔ validDonorBody b = true) ∧
    (validDonorBody b = true →
      (postDonorsHandler db b newId now).2 =
        { status := 200, success := true, donor := some (mkDonor b newId now),
          message := none } ∧
      (mkDonor b newId now).id = newId ∧ (mkDonor b newId now).createdAt = now ∧
      (postDonorsHandler db b newId now).1.donors = db.donors ++ [mkDonor b newId now]) ∧
    (validDonorBody b = false →
      (postDonorsHandler db b newId now).2.status = 400 ∧
      (postDonorsHandler db b newId now).2.success = false ∧
      (postDonorsHandler db b newId now).1 = db) := by
  cases hv : validDonorBody b
  · refine ⟨by simp [postDonorsHandler, hv], ?_, ?_⟩
    · intro h
      simp [hv] at h
    · intro _
      simp [postDonorsHandler, hv]
  · refine ⟨by simp [postDonorsHandler, hv], ?_, ?_⟩
    · intro _
      exact ⟨by simp [postDonorsHandler, hv], rfl, rfl, by simp [postDonorsHandler, hv]⟩
    · intro h
      simp [hv] at h

/-- Witness for C6: a fully populated donor body is stored and echoed with
the generated identifier and timestamp. -/
theorem post_donors_validation_witness :
    (postDonorsHandler emptyDB sampleDonorBody "donor1" 7).2 =
      { status := 200, success := true, donor := some (mkDonor sampleDonorBody "donor1" 7),
        message := none } :=
  ((post_donors_validation emptyDB sampleDonorBody "donor1" 7).2.1 (by decide)).1

/-- Counterexample to claim C8: the catch-all route is registered with
app.get, so it serves only GET requests; a POST to an unmatched path gets
the framework's default 404, not the front-end entry document served at the
root. -/
theorem catch_all_not_all_methods :
    apiRouteMatches .post "/dashboard" = false ∧
    dispatch .get "/" = .indexHtml ∧
    dispatch .post "/dashboard" = .expressNotFound ∧
    dispatch .post "/dashboard" ≠ dispatch .get "/" := by
  decide

/-- Claim C8 as amended: a GET request whose path matches no API route
receives the same front-end entry document as the root path; a request with
any other method and no matching route receives the framework's default 404
response. -/
theorem catch_all_get_only (m : HttpMethod) (p : String)
    (h : apiRouteMatches m p = false) :
    (m = .get → dispatch m p = .indexHtml ∧ dispatch m p = dispatch .get "/") ∧
    (m ≠ .get → dispatch m p = .expressNotFound) := by
  constructor
  · intro hm
    subst hm
    have hroot : apiRouteMatches .get "/" = false := by decide
    exact ⟨by simp [dispatch, h], by simp [dispatch, h, hroot]⟩
  · intro hm
    have hbeq : (m == HttpMethod.get) = false := by
      cases m <;> simp_all
    simp [dispatch, h, hbeq]

/-- Witness for the amended C8: GET on an unmatched path serves the entry
document. -/
theorem catch_all_get_only_witness :
    dispatch .get "/dashboard" = .indexHtml :=
  ((catch_all_get_only .get "/dashboard" (by decide)).1 rfl).1
